import Mathlib

set_option maxRecDepth 8192

/-!
Shallow embedding of the `EdgeGateway` client from `edgegateway.go`
(package govcloudair).  The configuration-merge logic of each write
operation is modelled as a pure function on the configuration data; the
HTTP POST step is modelled by an oracle: a list of outcomes, one per
attempt, each either a response body or a transport-error message.
Go `nil` pointers become `Option.none`; a nil-pointer dereference (a Go
panic, which returns no value at all) is modelled by propagating `none`.
-/

namespace Govcloudair

/-- `types.Reference`: an opaque handle to a network, compared by HREF. -/
structure Reference where
  href : String
  name : String
deriving DecidableEq, Repr

/-- `types.GatewayNatRule`: the endpoint fields of one NAT rule. -/
structure GatewayNatRule where
  interface : Reference
  originalIP : String
  originalPort : String
  translatedIP : String
  translatedPort : String
  protocol : String
deriving DecidableEq, Repr

/-- `types.NatRule`. -/
structure NatRule where
  ruleType : String
  description : String
  isEnabled : Bool
  gatewayNatRule : GatewayNatRule
deriving DecidableEq, Repr

/-- `types.NatService`: enabled flag, type, policy, external IP and the
ordered rule list. -/
structure NatService where
  isEnabled : Bool
  natType : String
  policy : String
  externalIP : String
  natRule : List NatRule
deriving DecidableEq, Repr

/-- `types.FirewallRuleProtocols` (only the `Any` flag is used here). -/
structure FirewallRuleProtocols where
  any : Bool
deriving DecidableEq, Repr

/-- `types.FirewallRule`. -/
structure FirewallRule where
  description : String
  isEnabled : Bool
  policy : String
  protocols : FirewallRuleProtocols
  destinationPortRange : String
  destinationIP : String
  sourcePortRange : String
  sourceIP : String
  enableLogging : Bool
deriving DecidableEq, Repr

/-- `types.FirewallService`. -/
structure FirewallService where
  isEnabled : Bool
  defaultAction : String
  logDefaultAction : Bool
  firewallRule : List FirewallRule
deriving DecidableEq, Repr

/-- `types.DhcpPoolService`: one DHCP pool. -/
structure DhcpPoolService where
  isEnabled : Bool
  network : Reference
  defaultLeaseTime : Int
  maxLeaseTime : Int
  lowIPAddress : String
  highIPAddress : String
deriving DecidableEq, Repr

/-- `types.GatewayDhcpService`. -/
structure GatewayDhcpService where
  isEnabled : Bool
  pool : List DhcpPoolService
deriving DecidableEq, Repr

/-- One entry of `e.EdgeGateway.Configuration.GatewayInterfaces.GatewayInterface`. -/
structure GatewayInterface where
  interfaceType : String
  network : Reference
deriving DecidableEq, Repr

/-- One entry of the `dhcppool []interface{}` argument of `AddDhcpPool`:
a `map[string]interface{}` whose keys `default_lease_time` /
`max_lease_time` may be absent (Go `nil` lookup), modelled with `Option`. -/
structure DhcpPoolRequest where
  defaultLeaseTime : Option Int
  maxLeaseTime : Option Int
  startAddress : String
  endAddress : String
deriving DecidableEq, Repr

/-- The Go `for … range` loops of this file all build a fresh slice with
`append` inside the loop, skipping (`continue`) the entries that match a
drop predicate: `keepNonMatching p acc l` runs that loop over `l`,
starting from the already-accumulated slice `acc`. -/
def keepNonMatching (p : α → Bool) (acc : List α) : List α → List α
  | [] => acc
  | v :: rest =>
    if p v then keepNonMatching p acc rest
    else keepNonMatching p (acc ++ [v]) rest

/-- `getFirstUplink` (edgegateway.go:212): iterate the gateway interfaces,
skipping non-"uplink" ones, overwriting `uplink` each time — the zero
`types.Reference` if no uplink exists.  `RemoveNATPortMapping`
(edgegateway.go:130) inlines the identical loop. -/
def getFirstUplink (ifaces : List GatewayInterface) : Reference :=
  ifaces.foldl
    (fun uplink gi => if gi.interfaceType != "uplink" then uplink else gi.network)
    { href := "", name := "" }

/-- The uplink-selection loop of `Create1to1Mapping` (edgegateway.go:548)
and `Remove1to1Mapping` (edgegateway.go:410): same scan, phrased
positively over the HREF string, starting from the empty string. -/
def selectUplinkHref (ifaces : List GatewayInterface) : String :=
  ifaces.foldl
    (fun uplinkif gi => if gi.interfaceType == "uplink" then gi.network.href else uplinkif)
    ""

/-- The match condition of `RemoveNATPortMapping` (edgegateway.go:153):
rule type, original IP, original port and interface HREF — the translated
fields are not inspected. -/
def matchesNat4 (nattype externalIP externalPort uplinkHref : String) (v : NatRule) : Bool :=
  v.ruleType == nattype &&
  v.gatewayNatRule.originalIP == externalIP &&
  v.gatewayNatRule.originalPort == externalPort &&
  v.gatewayNatRule.interface.href == uplinkHref

/-- The match condition of `AddNATPortMappingWithUplink`
(edgegateway.go:250): the full 6-tuple including the translated fields. -/
def matchesNat6 (nattype externalIP externalPort internalIP internalPort uplinkRef : String)
    (v : NatRule) : Bool :=
  v.ruleType == nattype &&
  v.gatewayNatRule.originalIP == externalIP &&
  v.gatewayNatRule.originalPort == externalPort &&
  v.gatewayNatRule.translatedIP == internalIP &&
  v.gatewayNatRule.translatedPort == internalPort &&
  v.gatewayNatRule.interface.href == uplinkRef

/-- The rule appended by `AddNATPortMappingWithUplink` (edgegateway.go:264):
enabled, protocol fixed to "tcp", interface referenced by HREF only. -/
def newNatRuleFor (nattype externalIP externalPort internalIP internalPort uplinkRef : String) :
    NatRule :=
  { ruleType := nattype
    description := ""
    isEnabled := true
    gatewayNatRule :=
      { interface := { href := uplinkRef, name := "" }
        originalIP := externalIP
        originalPort := externalPort
        translatedIP := internalIP
        translatedPort := internalPort
        protocol := "tcp" } }

/-- `RemoveNATPortMapping` (edgegateway.go:129), configuration part: find
the uplink, then rebuild the NAT service keeping only the rules whose
4-tuple does not match.  With a nil `NatService` the Go code dereferences
it (`newedgeconfig.NatService.IsEnabled`, line 144) and panics: no value
and no error is produced, modelled by `none`.  `internalIP` and
`internalPort` are accepted and ignored, as in the source. -/
def removeNATPortMappingService
    (nattype externalIP externalPort internalIP internalPort : String)
    (ifaces : List GatewayInterface) (svc : Option NatService) : Option NatService :=
  let _ := internalIP
  let _ := internalPort
  let uplink := getFirstUplink ifaces
  match svc with
  | none => none
  | some s =>
    some { isEnabled := s.isEnabled
           natType := s.natType
           policy := s.policy
           externalIP := s.externalIP
           natRule :=
             keepNonMatching (matchesNat4 nattype externalIP externalPort uplink.href)
               [] s.natRule }

/-- `AddNATPortMappingWithUplink` (edgegateway.go:223), configuration part,
given the already-resolved uplink HREF: with no existing NAT service,
start an enabled empty one; otherwise copy the header fields and keep the
rules whose 6-tuple does not match; in both cases append the new rule. -/
def addNATPortMappingWithUplinkService
    (uplinkRef nattype externalIP externalPort internalIP internalPort : String)
    (svc : Option NatService) : NatService :=
  let base : NatService :=
    match svc with
    | none =>
      { isEnabled := true, natType := "", policy := "", externalIP := "", natRule := [] }
    | some s =>
      { isEnabled := s.isEnabled
        natType := s.natType
        policy := s.policy
        externalIP := s.externalIP
        natRule :=
          keepNonMatching
            (matchesNat6 nattype externalIP externalPort internalIP internalPort uplinkRef)
            [] s.natRule }
  { base with
      natRule := base.natRule ++
        [newNatRuleFor nattype externalIP externalPort internalIP internalPort uplinkRef] }

/-- The uplink resolution at the head of `AddNATPortMappingWithUplink`
(edgegateway.go:227): an explicit network wins, else `getFirstUplink`. -/
def addNATUplinkRef (network : Option Reference) (ifaces : List GatewayInterface) : String :=
  match network with
  | some n => n.href
  | none => (getFirstUplink ifaces).href

/-- The two `if data[…] == nil` assignments of `AddDhcpPool`
(edgegateway.go:58 and :62): write 3600 / 7200 into the caller's map when
the key is absent.  Go maps are mutated in place, so the updated entry is
what the caller observes after the call. -/
def fillLeaseDefaults (d : DhcpPoolRequest) : DhcpPoolRequest :=
  let d :=
    if d.defaultLeaseTime.isNone then { d with defaultLeaseTime := some 3600 } else d
  if d.maxLeaseTime.isNone then { d with maxLeaseTime := some 7200 } else d

/-- The `types.DhcpPoolService` literal built at edgegateway.go:66 from one
(already defaulted) request entry.  The lease-time fields are `some` after
`fillLeaseDefaults`; the `getD 0` arm is unreachable there. -/
def dhcpRuleFor (network : Reference) (d : DhcpPoolRequest) : DhcpPoolService :=
  { isEnabled := true
    network := { href := network.href, name := network.name }
    defaultLeaseTime := d.defaultLeaseTime.getD 0
    maxLeaseTime := d.maxLeaseTime.getD 0
    lowIPAddress := d.startAddress
    highIPAddress := d.endAddress }

/-- The second loop of `AddDhcpPool` (edgegateway.go:55): for each request
entry, default the lease times (mutating the caller's map) and append the
built pool.  Returns the grown pool list and the list of mutated request
entries, in order. -/
def dhcpAppendLoop (network : Reference) (acc : List DhcpPoolService) :
    List DhcpPoolRequest → List DhcpPoolService × List DhcpPoolRequest
  | [] => (acc, [])
  | d :: rest =>
    let d := fillLeaseDefaults d
    let out := dhcpAppendLoop network (acc ++ [dhcpRuleFor network d]) rest
    (out.1, d :: out.2)

/-- `AddDhcpPool` (edgegateway.go:33), configuration part: with no existing
DHCP service, start an enabled empty one; otherwise copy the enabled flag
and keep the pools bound to other networks (compared by HREF,
edgegateway.go:47); then run the request loop.  The second component is
the caller's request list as mutated by the loop. -/
def addDhcpPoolService (network : Reference) (request : List DhcpPoolRequest)
    (svc : Option GatewayDhcpService) : GatewayDhcpService × List DhcpPoolRequest :=
  let base : GatewayDhcpService :=
    match svc with
    | none => { isEnabled := true, pool := [] }
    | some s =>
      { isEnabled := s.isEnabled
        pool := keepNonMatching (fun v => v.network.href == network.href) [] s.pool }
  let out := dhcpAppendLoop network base.pool request
  ({ base with pool := out.1 }, out.2)

/-- The SNAT rule appended by `Create1to1Mapping` (edgegateway.go:557):
ports are the Go zero value (empty string). -/
def snatRuleFor (internal external description uplinkif : String) : NatRule :=
  { ruleType := "SNAT"
    description := description
    isEnabled := true
    gatewayNatRule :=
      { interface := { href := uplinkif, name := "" }
        originalIP := internal
        originalPort := ""
        translatedIP := external
        translatedPort := ""
        protocol := "any" } }

/-- The DNAT rule appended by `Create1to1Mapping` (edgegateway.go:573). -/
def dnatRuleFor (internal external description uplinkif : String) : NatRule :=
  { ruleType := "DNAT"
    description := description
    isEnabled := true
    gatewayNatRule :=
      { interface := { href := uplinkif, name := "" }
        originalIP := external
        originalPort := "any"
        translatedIP := internal
        translatedPort := "any"
        protocol := "any" } }

/-- The inbound firewall rule appended by `Create1to1Mapping`
(edgegateway.go:591). -/
def fwinRuleFor (external description : String) : FirewallRule :=
  { description := description
    isEnabled := true
    policy := "allow"
    protocols := { any := true }
    destinationPortRange := "Any"
    destinationIP := external
    sourcePortRange := "Any"
    sourceIP := "Any"
    enableLogging := false }

/-- The outbound firewall rule appended by `Create1to1Mapping`
(edgegateway.go:607). -/
def fwoutRuleFor (internal description : String) : FirewallRule :=
  { description := description
    isEnabled := true
    policy := "allow"
    protocols := { any := true }
    destinationPortRange := "Any"
    destinationIP := "Any"
    sourcePortRange := "Any"
    sourceIP := internal
    enableLogging := false }

/-- `Create1to1Mapping` (edgegateway.go:540), configuration part: resolve
the uplink, append the SNAT and DNAT rules to the NAT service and the two
allow rules to the firewall service. -/
def create1to1Services (internal external description : String)
    (ifaces : List GatewayInterface) (nat : NatService) (fw : FirewallService) :
    NatService × FirewallService :=
  let uplinkif := selectUplinkHref ifaces
  ({ nat with natRule := nat.natRule ++ [snatRuleFor internal external description uplinkif]
        ++ [dnatRuleFor internal external description uplinkif] },
   { fw with firewallRule := fw.firewallRule ++ [fwinRuleFor external description]
        ++ [fwoutRuleFor internal description] })

/-- The two sequential `continue` conditions of `Remove1to1Mapping`'s NAT
loop (edgegateway.go:432 and :444): a rule is skipped when either the DNAT
or the SNAT pattern matches. -/
def remove1to1NatDrop (internal external uplinkif : String) (v : NatRule) : Bool :=
  (v.ruleType == "DNAT" &&
    v.gatewayNatRule.originalIP == external &&
    v.gatewayNatRule.translatedIP == internal &&
    v.gatewayNatRule.originalPort == "any" &&
    v.gatewayNatRule.translatedPort == "any" &&
    v.gatewayNatRule.protocol == "any" &&
    v.gatewayNatRule.interface.href == uplinkif) ||
  (v.ruleType == "SNAT" &&
    v.gatewayNatRule.originalIP == internal &&
    v.gatewayNatRule.translatedIP == external &&
    v.gatewayNatRule.interface.href == uplinkif)

/-- The two sequential `continue` conditions of `Remove1to1Mapping`'s
firewall loop (edgegateway.go:472 and :483). -/
def remove1to1FwDrop (internal external : String) (v : FirewallRule) : Bool :=
  (v.policy == "allow" &&
    v.protocols.any == true &&
    v.destinationPortRange == "Any" &&
    v.sourcePortRange == "Any" &&
    v.sourceIP == "Any" &&
    v.destinationIP == external) ||
  (v.policy == "allow" &&
    v.protocols.any == true &&
    v.destinationPortRange == "Any" &&
    v.sourcePortRange == "Any" &&
    v.sourceIP == internal &&
    v.destinationIP == "Any")

/-- `Remove1to1Mapping` (edgegateway.go:402), configuration part: resolve
the uplink, rebuild both services keeping the non-matching rules, and
force `NatService.IsEnabled = true` (the "Fix" at edgegateway.go:502). -/
def remove1to1Services (internal external : String)
    (ifaces : List GatewayInterface) (nat : NatService) (fw : FirewallService) :
    NatService × FirewallService :=
  let uplinkif := selectUplinkHref ifaces
  ({ isEnabled := true
     natType := nat.natType
     policy := nat.policy
     externalIP := nat.externalIP
     natRule := keepNonMatching (remove1to1NatDrop internal external uplinkif) [] nat.natRule },
   { isEnabled := fw.isEnabled
     defaultAction := fw.defaultAction
     logDefaultAction := fw.logDefaultAction
     firewallRule := keepNonMatching (remove1to1FwDrop internal external) [] fw.firewallRule })

/-- The text whose occurrence at the end of an error message (followed by
one more character, matched by the regex dot) marks the transient
server-busy condition (edgegateway.go:105 and :356). -/
def busyText : String := "is busy completing an operation"

/-- `pat` is a suffix of `l`. -/
def listEndsWith (l pat : List Char) : Bool :=
  pat == l.drop (l.length - pat.length)

/-- `regexp.MatchString("is busy completing an operation.$", s)`: the
unanchored pattern matches iff `s` is some prefix, then `busyText`, then
exactly one further character — matched by the regex `.`, which excludes
a newline ($ anchors at end of text, RE2 defaults). -/
def matchesBusyEnd (s : String) : Bool :=
  listEndsWith s.data.dropLast busyText.data && s.data.getLast? != some '\n'

/-- The POST retry loop shared by `AddDhcpPool` (edgegateway.go:91) and
`CreateFirewallRules` (edgegateway.go:342), run against an oracle listing
the outcome of each successive attempt.  Returns the final outcome
together with the number of 3-second sleeps performed, or `none` when the
oracle is exhausted while the loop is still retrying (the loop itself is
unbounded). -/
def postWithBusyRetry (sleeps : Nat) :
    List (Except String String) → Option (Except String String × Nat)
  | [] => none
  | o :: rest =>
    match o with
    | .ok r => some (.ok r, sleeps)
    | .error e =>
      if matchesBusyEnd e then postWithBusyRetry (sleeps + 1) rest
      else some (.error e, sleeps)

/-- A non-retrying POST (the single `checkResp` call of every other write
path, e.g. edgegateway.go:187): the first outcome is final, no sleep. -/
def postOnce : List (Except String String) → Option (Except String String × Nat)
  | [] => none
  | o :: _ => some (o, 0)

/-- The POST step of `AddDhcpPool` (edgegateway.go:91): retries on busy. -/
def addDhcpPoolPost (outcomes : List (Except String String)) :
    Option (Except String String × Nat) :=
  postWithBusyRetry 0 outcomes

/-- The POST step of `CreateFirewallRules` (edgegateway.go:342): retries on
busy. -/
def createFirewallRulesPost (outcomes : List (Except String String)) :
    Option (Except String String × Nat) :=
  postWithBusyRetry 0 outcomes

/-- The POST step of `RemoveNATPortMapping` (edgegateway.go:187): no loop. -/
def removeNATPortMappingPost (outcomes : List (Except String String)) :
    Option (Except String String × Nat) :=
  postOnce outcomes

/-- The POST step of `AddNATPortMappingWithUplink` (edgegateway.go:303):
no loop. -/
def addNATPortMappingPost (outcomes : List (Except String String)) :
    Option (Except String String × Nat) :=
  postOnce outcomes

/-- The POST step of `Create1to1Mapping` (edgegateway.go:643): no loop. -/
def create1to1MappingPost (outcomes : List (Except String String)) :
    Option (Except String String × Nat) :=
  postOnce outcomes

/-- The POST step of `Remove1to1Mapping` (edgegateway.go:524): no loop. -/
def remove1to1MappingPost (outcomes : List (Except String String)) :
    Option (Except String String × Nat) :=
  postOnce outcomes

/-- The POST step of `AddIpsecVPN` (edgegateway.go:687): no loop. -/
def addIpsecVPNPost (outcomes : List (Except String String)) :
    Option (Except String String × Nat) :=
  postOnce outcomes

/-- The fields of `types.EdgeGateway` that this client reads: its own HREF,
the interface list and the three service sections (each a nilable
pointer in Go). -/
structure EdgeGatewayStruct where
  href : String
  gatewayInterface : List GatewayInterface
  natService : Option NatService
  firewallService : Option FirewallService
  gatewayDhcpService : Option GatewayDhcpService
deriving DecidableEq, Repr

/-- The fresh `&types.EdgeGateway{}` allocated at edgegateway.go:392. -/
def emptyEdgeGateway : EdgeGatewayStruct :=
  { href := ""
    gatewayInterface := []
    natService := none
    firewallService := none
    gatewayDhcpService := none }

/-- `decodeBody(resp, e.EdgeGateway)`: Go's `encoding/xml` unmarshalling
APPENDS decoded elements to any slice already present in the target
struct (the reason for the comment at edgegateway.go:390), while scalar
and pointer fields are overwritten.  `base` is the struct decoded into,
`body` the parsed response. -/
def decodeBodyInto (base body : EdgeGatewayStruct) : EdgeGatewayStruct :=
  { href := body.href
    gatewayInterface := base.gatewayInterface ++ body.gatewayInterface
    natService := body.natService
    firewallService := body.firewallService
    gatewayDhcpService := body.gatewayDhcpService }

/-- `Refresh` (edgegateway.go:375) against a transport oracle: with a nil
`e.EdgeGateway` fail before any request; otherwise GET (one request), and
on success replace the held struct by a fresh empty one before decoding.
Result: (new held struct, returned error, number of HTTP requests). -/
def refresh (st : Option EdgeGatewayStruct) (transport : Except String EdgeGatewayStruct) :
    Option EdgeGatewayStruct × Except String Unit × Nat :=
  match st with
  | none => (none, .error "cannot refresh, Object is empty", 0)
  | some prev =>
    match transport with
    | .error e => (some prev, .error ("error retreiving Edge Gateway: " ++ e), 1)
    | .ok body => (some (decodeBodyInto emptyEdgeGateway body), .ok (), 1)

/-- `CreateFirewallRules` (edgegateway.go:320) after its `Refresh`: a
failed refresh returns early (edgegateway.go:322), so no document is
built; otherwise the whole firewall rule list is replaced by `rules`,
enabled and with default-action logging on. -/
def createFirewallRulesRun (defaultAction : String) (rules : List FirewallRule)
    (refreshResult : Except String Unit) : Option FirewallService :=
  match refreshResult with
  | .error _ => none
  | .ok _ =>
    some { isEnabled := true
           defaultAction := defaultAction
           logDefaultAction := true
           firewallRule := rules }

/-- `Create1to1Mapping` (edgegateway.go:540) after its `Refresh`: a failed
refresh is only printed (edgegateway.go:545) and the operation continues
with the held state. -/
def create1to1MappingRun (internal external description : String)
    (ifaces : List GatewayInterface) (nat : NatService) (fw : FirewallService)
    (refreshResult : Except String Unit) : Option (NatService × FirewallService) :=
  let _ := refreshResult
  some (create1to1Services internal external description ifaces nat fw)

/-- `Remove1to1Mapping` (edgegateway.go:402) after its `Refresh`: a failed
refresh is only printed (edgegateway.go:407) and the operation continues
with the held state. -/
def remove1to1MappingRun (internal external : String)
    (ifaces : List GatewayInterface) (nat : NatService) (fw : FirewallService)
    (refreshResult : Except String Unit) : Option (NatService × FirewallService) :=
  let _ := refreshResult
  some (remove1to1Services internal external ifaces nat fw)

/-- `AddIpsecVPN` (edgegateway.go:659) after its `Refresh`: a failed
refresh is only printed (edgegateway.go:663) and the caller-supplied
configuration document (here: its serialized form) is posted verbatim. -/
def addIpsecVPNRun (ipsecVPNConfig : String)
    (refreshResult : Except String Unit) : Option String :=
  let _ := refreshResult
  some ipsecVPNConfig

/-- The whole of `AddDhcpPool`: the configuration merge (which mutates the
caller's request entries) happens before the POST loop, so the mutated
request list is the same whatever the attempt outcomes are. -/
def addDhcpPoolRun (network : Reference) (request : List DhcpPoolRequest)
    (svc : Option GatewayDhcpService) (outcomes : List (Except String String)) :
    Option (Except String String × Nat) × GatewayDhcpService × List DhcpPoolRequest :=
  let merged := addDhcpPoolService network request svc
  (addDhcpPoolPost outcomes, merged.1, merged.2)

/-- Concrete gateway interfaces used to evaluate the theorems: two uplinks
with distinct network references around one internal interface. -/
def demoUplinkA : GatewayInterface :=
  { interfaceType := "uplink", network := { href := "urn:net:a", name := "extA" } }

def demoUplinkB : GatewayInterface :=
  { interfaceType := "uplink", network := { href := "urn:net:b", name := "extB" } }

def demoInternalIf : GatewayInterface :=
  { interfaceType := "internal", network := { href := "urn:net:int", name := "orgnet" } }

def demoIfaces : List GatewayInterface := [demoUplinkA, demoInternalIf, demoUplinkB]

/-- A pre-existing NAT rule unrelated to the demo 1:1 mapping. -/
def demoNatRule : NatRule :=
  { ruleType := "DNAT"
    description := "keep me"
    isEnabled := true
    gatewayNatRule :=
      { interface := { href := "urn:net:b", name := "" }
        originalIP := "198.51.100.7"
        originalPort := "443"
        translatedIP := "10.0.0.7"
        translatedPort := "8443"
        protocol := "tcp" } }

def demoNatService : NatService :=
  { isEnabled := true
    natType := "ipTranslation"
    policy := "allowTraffic"
    externalIP := "203.0.113.1"
    natRule := [demoNatRule] }

/-- A pre-existing firewall rule unrelated to the demo 1:1 mapping. -/
def demoFwRule : FirewallRule :=
  { description := "keep me"
    isEnabled := true
    policy := "drop"
    protocols := { any := false }
    destinationPortRange := "22"
    destinationIP := "10.0.0.7"
    sourcePortRange := "Any"
    sourceIP := "Any"
    enableLogging := true }

def demoFwService : FirewallService :=
  { isEnabled := true
    defaultAction := "drop"
    logDefaultAction := false
    firewallRule := [demoFwRule] }

/-- A DHCP pool bound to the demo target network `urn:net:int`. -/
def demoPoolTarget : DhcpPoolService :=
  { isEnabled := true
    network := { href := "urn:net:int", name := "orgnet" }
    defaultLeaseTime := 600
    maxLeaseTime := 1200
    lowIPAddress := "10.0.0.10"
    highIPAddress := "10.0.0.50" }

/-- A DHCP pool bound to a different network, to be preserved. -/
def demoPoolOther : DhcpPoolService :=
  { isEnabled := true
    network := { href := "urn:net:other", name := "othernet" }
    defaultLeaseTime := 900
    maxLeaseTime := 1800
    lowIPAddress := "10.1.0.10"
    highIPAddress := "10.1.0.50" }

def demoDhcpService : GatewayDhcpService :=
  { isEnabled := true, pool := [demoPoolTarget, demoPoolOther] }

/-- A request entry with both lease times absent. -/
def demoDhcpRequest : DhcpPoolRequest :=
  { defaultLeaseTime := none
    maxLeaseTime := none
    startAddress := "10.0.0.100"
    endAddress := "10.0.0.150" }

/-- A server-busy transport error message of the shape the retry loop
recognises. -/
def demoBusyMsg : String := "The edge gateway is busy completing an operation."

/-! Helper lemmas shared by the claim theorems. -/

/-- The Go skip-and-append loop is append-then-filter. -/
theorem keepNonMatching_eq (p : α → Bool) (acc : List α) (l : List α) :
    keepNonMatching p acc l = acc ++ l.filter (fun v => !p v) := by
  induction l generalizing acc with
  | nil => simp [keepNonMatching]
  | cons v rest ih =>
    by_cases h : p v = true
    · simp [keepNonMatching, h, ih]
    · simp only [Bool.not_eq_true] at h
      simp [keepNonMatching, h, ih]

/-- Splitting a list's length by a predicate. -/
theorem countP_split (p : α → Bool) (l : List α) :
    l.countP p + l.countP (fun a => !p a) = l.length := by
  induction l with
  | nil => simp
  | cons a l ih =>
    by_cases h : p a = true <;> simp [List.countP_cons, h] <;> omega

/-- A left fold that overwrites its accumulator at every element
satisfying `p` ends at the last such element (or at `init`). -/
theorem foldl_select_last (p : α → Bool) (g : α → β) (init : β) (l : List α) :
    l.foldl (fun acc x => if p x then g x else acc) init =
      (((l.filter p).getLast?.map g).getD init) := by
  induction l generalizing init with
  | nil => simp
  | cons a l ih =>
    simp only [List.foldl_cons, List.filter_cons]
    by_cases h : p a = true
    · simp only [h, if_true, ih, List.getLast?_cons]
      cases hx : (l.filter p).getLast? <;> simp [hx]
    · simp only [Bool.not_eq_true] at h
      simp [h, ih]

/-- `getFirstUplink` returns the network of the last "uplink" interface. -/
theorem getFirstUplink_eq_last (ifaces : List GatewayInterface) :
    getFirstUplink ifaces =
      (((ifaces.filter fun gi => gi.interfaceType == "uplink").getLast?.map
          fun gi => gi.network).getD { href := "", name := "" }) := by
  unfold getFirstUplink
  have hf : (fun (uplink : Reference) (gi : GatewayInterface) =>
        if gi.interfaceType != "uplink" then uplink else gi.network) =
      fun uplink gi => if gi.interfaceType == "uplink" then gi.network else uplink := by
    funext u gi
    cases h : gi.interfaceType == "uplink" <;> simp [bne, h]
  rw [hf, foldl_select_last]

/-- `selectUplinkHref` returns the HREF of the last "uplink" interface. -/
theorem selectUplinkHref_eq_last (ifaces : List GatewayInterface) :
    selectUplinkHref ifaces =
      (((ifaces.filter fun gi => gi.interfaceType == "uplink").getLast?.map
          fun gi => gi.network.href).getD "") := by
  unfold selectUplinkHref
  rw [foldl_select_last]

/-- A run of busy errors only advances the sleep counter. -/
theorem postWithBusyRetry_replicate (n sleeps : Nat) (msg : String)
    (hbusy : matchesBusyEnd msg = true) (rest : List (Except String String)) :
    postWithBusyRetry sleeps (List.replicate n (.error msg) ++ rest) =
      postWithBusyRetry (sleeps + n) rest := by
  induction n generalizing sleeps with
  | zero => simp
  | succ n ih =>
    simp only [List.replicate_succ, List.cons_append, postWithBusyRetry, hbusy, if_true,
      List.append_eq]
    rw [ih]
    have harith : sleeps + 1 + n = sleeps + (n + 1) := by omega
    rw [harith]

/-! The claim theorems. -/

/-- C1: `AddNATPortMappingWithUplink` keeps, in their original order,
exactly the existing rules whose 6-tuple {rule type, original IP/port,
translated IP/port, interface HREF} does not match the new rule's, and
appends one new enabled rule with protocol "tcp"; hence with no matching
rule the list grows by one, and with exactly one matching rule the length
is unchanged. -/
theorem addNATPortMapping_rule_merge
    (nattype externalIP externalPort internalIP internalPort uplinkRef : String)
    (s : NatService) :
    (addNATPortMappingWithUplinkService uplinkRef nattype externalIP externalPort
        internalIP internalPort (some s)).natRule =
      s.natRule.filter
          (fun v => !matchesNat6 nattype externalIP externalPort internalIP internalPort uplinkRef v)
        ++ [newNatRuleFor nattype externalIP externalPort internalIP internalPort uplinkRef]
    ∧ (newNatRuleFor nattype externalIP externalPort internalIP internalPort uplinkRef).isEnabled
        = true
    ∧ (newNatRuleFor nattype externalIP externalPort internalIP internalPort
        uplinkRef).gatewayNatRule.protocol = "tcp"
    ∧ (s.natRule.countP
          (matchesNat6 nattype externalIP externalPort internalIP internalPort uplinkRef) = 0 →
        (addNATPortMappingWithUplinkService uplinkRef nattype externalIP externalPort
            internalIP internalPort (some s)).natRule.length = s.natRule.length + 1)
    ∧ (s.natRule.countP
          (matchesNat6 nattype externalIP externalPort internalIP internalPort uplinkRef) = 1 →
        (addNATPortMappingWithUplinkService uplinkRef nattype externalIP externalPort
            internalIP internalPort (some s)).natRule.length = s.natRule.length) := by
  have hrules :
      (addNATPortMappingWithUplinkService uplinkRef nattype externalIP externalPort
          internalIP internalPort (some s)).natRule =
        s.natRule.filter
            (fun v => !matchesNat6 nattype externalIP externalPort internalIP internalPort
              uplinkRef v)
          ++ [newNatRuleFor nattype externalIP externalPort internalIP internalPort uplinkRef] := by
    simp [addNATPortMappingWithUplinkService, keepNonMatching_eq]
  have hsplit := countP_split
    (matchesNat6 nattype externalIP externalPort internalIP internalPort uplinkRef) s.natRule
  have hlen :
      (addNATPortMappingWithUplinkService uplinkRef nattype externalIP externalPort
          internalIP internalPort (some s)).natRule.length =
        s.natRule.countP
          (fun v => !matchesNat6 nattype externalIP externalPort internalIP internalPort
            uplinkRef v) + 1 := by
    rw [hrules]
    simp [← List.countP_eq_length_filter]
  refine ⟨hrules, rfl, rfl, ?_, ?_⟩
  · intro h0
    rw [hlen]
    omega
  · intro h1
    rw [hlen]
    omega

/-- C1 witness: on the demo NAT service (one rule, not matching), the list
grows by one; after adding the same mapping again (now exactly one rule
matches), the length is unchanged. -/
theorem addNATPortMapping_rule_merge_witness :
    (addNATPortMappingWithUplinkService "urn:net:b" "DNAT" "203.0.113.2" "80"
        "10.0.0.8" "8080" (some demoNatService)).natRule.length
      = demoNatService.natRule.length + 1
    ∧ (addNATPortMappingWithUplinkService "urn:net:b" "DNAT" "203.0.113.2" "80"
        "10.0.0.8" "8080"
        (some (addNATPortMappingWithUplinkService "urn:net:b" "DNAT" "203.0.113.2" "80"
          "10.0.0.8" "8080" (some demoNatService)))).natRule.length
      = (addNATPortMappingWithUplinkService "urn:net:b" "DNAT" "203.0.113.2" "80"
          "10.0.0.8" "8080" (some demoNatService)).natRule.length :=
  ⟨(addNATPortMapping_rule_merge "DNAT" "203.0.113.2" "80" "10.0.0.8" "8080" "urn:net:b"
      demoNatService).2.2.2.1 (by decide),
   (addNATPortMapping_rule_merge "DNAT" "203.0.113.2" "80" "10.0.0.8" "8080" "urn:net:b"
      (addNATPortMappingWithUplinkService "urn:net:b" "DNAT" "203.0.113.2" "80"
        "10.0.0.8" "8080" (some demoNatService))).2.2.2.2 (by decide)⟩

/-- C2: `RemoveNATPortMapping` drops every rule whose {rule type, original
IP, original port, interface HREF} matches the arguments and the selected
uplink — the match never inspects the translated fields — and keeps all
other rules in order, so all N rules sharing the 4-tuple are dropped. -/
theorem removeNATPortMapping_rule_filter
    (nattype externalIP externalPort internalIP internalPort : String)
    (ifaces : List GatewayInterface) (s : NatService) :
    removeNATPortMappingService nattype externalIP externalPort internalIP internalPort
        ifaces (some s) =
      some { isEnabled := s.isEnabled
             natType := s.natType
             policy := s.policy
             externalIP := s.externalIP
             natRule := s.natRule.filter
               (fun v => !matchesNat4 nattype externalIP externalPort
                 (getFirstUplink ifaces).href v) }
    ∧ (∀ (v : NatRule) (tIP tPort : String),
        matchesNat4 nattype externalIP externalPort (getFirstUplink ifaces).href
            { v with gatewayNatRule :=
                { v.gatewayNatRule with translatedIP := tIP, translatedPort := tPort } } =
          matchesNat4 nattype externalIP externalPort (getFirstUplink ifaces).href v)
    ∧ (s.natRule.filter
          (fun v => !matchesNat4 nattype externalIP externalPort
            (getFirstUplink ifaces).href v)).countP
        (matchesNat4 nattype externalIP externalPort (getFirstUplink ifaces).href) = 0
    ∧ (s.natRule.filter
          (fun v => !matchesNat4 nattype externalIP externalPort
            (getFirstUplink ifaces).href v)).length =
        s.natRule.length -
          s.natRule.countP
            (matchesNat4 nattype externalIP externalPort (getFirstUplink ifaces).href) := by
  refine ⟨?_, ?_, ?_, ?_⟩
  · simp [removeNATPortMappingService, keepNonMatching_eq]
  · intro v tIP tPort
    simp [matchesNat4]
  · rw [List.countP_eq_zero]
    intro v hv
    rw [List.mem_filter] at hv
    simpa using hv.2
  · have hsplit := countP_split
      (matchesNat4 nattype externalIP externalPort (getFirstUplink ifaces).href) s.natRule
    rw [← List.countP_eq_length_filter]
    omega

/-- The DHCP request loop, closed form: pools grow by one entry per
request, and the mutated request list is the defaulted one. -/
theorem dhcpAppendLoop_eq (network : Reference) (acc : List DhcpPoolService)
    (request : List DhcpPoolRequest) :
    dhcpAppendLoop network acc request =
      (acc ++ request.map (fun d => dhcpRuleFor network (fillLeaseDefaults d)),
       request.map fillLeaseDefaults) := by
  induction request generalizing acc with
  | nil => simp [dhcpAppendLoop]
  | cons d rest ih => simp [dhcpAppendLoop, ih]

/-- A map that leaves a list unchanged fixes each element. -/
theorem map_fixes_of_map_eq_self (f : α → α) (l : List α) (h : l.map f = l) :
    ∀ a ∈ l, f a = a := by
  induction l with
  | nil => simp
  | cons b t ih =>
    simp only [List.map_cons, List.cons.injEq] at h
    intro a ha
    rcases List.mem_cons.mp ha with rfl | ha'
    · exact h.1
    · exact ih h.2 a ha'

/-- C3: `AddDhcpPool` keeps, in their original order, exactly the existing
pools bound to a different network than the target, then appends one new
pool per requested entry; a requested entry lacking `default_lease_time`
receives 3600 and one lacking `max_lease_time` receives 7200, exactly,
while supplied values are kept. -/
theorem addDhcpPool_pool_merge (network : Reference) (request : List DhcpPoolRequest)
    (s : GatewayDhcpService) :
    (addDhcpPoolService network request (some s)).1.pool =
      s.pool.filter (fun v => !(v.network.href == network.href))
        ++ request.map (fun d => dhcpRuleFor network (fillLeaseDefaults d))
    ∧ (∀ d : DhcpPoolRequest, d.defaultLeaseTime = none →
        (fillLeaseDefaults d).defaultLeaseTime = some 3600)
    ∧ (∀ d : DhcpPoolRequest, d.maxLeaseTime = none →
        (fillLeaseDefaults d).maxLeaseTime = some 7200)
    ∧ (∀ (d : DhcpPoolRequest) (t : Int), d.defaultLeaseTime = some t →
        (fillLeaseDefaults d).defaultLeaseTime = some t)
    ∧ (∀ (d : DhcpPoolRequest) (t : Int), d.maxLeaseTime = some t →
        (fillLeaseDefaults d).maxLeaseTime = some t) := by
  refine ⟨?_, ?_, ?_, ?_, ?_⟩
  · simp [addDhcpPoolService, keepNonMatching_eq, dhcpAppendLoop_eq]
  · intro d h
    cases hm : d.maxLeaseTime <;> simp [fillLeaseDefaults, h, hm]
  · intro d h
    cases hd : d.defaultLeaseTime <;> simp [fillLeaseDefaults, h, hd]
  · intro d t h
    cases hm : d.maxLeaseTime <;> simp [fillLeaseDefaults, h, hm]
  · intro d t h
    cases hd : d.defaultLeaseTime <;> simp [fillLeaseDefaults, h, hd]

/-- C3 witness: on the demo DHCP service (one pool on the target network,
one on another) with one request lacking both lease times, the merge
keeps only the other-network pool and appends one pool with lease times
3600 / 7200. -/
theorem addDhcpPool_pool_merge_witness :
    (fillLeaseDefaults demoDhcpRequest).defaultLeaseTime = some 3600
    ∧ (fillLeaseDefaults demoDhcpRequest).maxLeaseTime = some 7200
    ∧ (addDhcpPoolService { href := "urn:net:int", name := "orgnet" } [demoDhcpRequest]
        (some demoDhcpService)).1.pool =
      [demoPoolOther,
       dhcpRuleFor { href := "urn:net:int", name := "orgnet" }
         (fillLeaseDefaults demoDhcpRequest)] :=
  ⟨(addDhcpPool_pool_merge { href := "urn:net:int", name := "orgnet" } [demoDhcpRequest]
      demoDhcpService).2.1 demoDhcpRequest rfl,
   (addDhcpPool_pool_merge { href := "urn:net:int", name := "orgnet" } [demoDhcpRequest]
      demoDhcpService).2.2.1 demoDhcpRequest rfl,
   by
    rw [(addDhcpPool_pool_merge { href := "urn:net:int", name := "orgnet" } [demoDhcpRequest]
      demoDhcpService).1]
    decide⟩

/-- C10: `AddDhcpPool` mutates its caller-supplied request entries: after
the call (whatever the POST outcomes, including failures) the caller's
list is the defaulted one, so any entry that lacked a lease-time key now
carries 3600 / 7200, and the list is observably different from the input
whenever some entry lacked a key. -/
theorem addDhcpPool_mutates_request (network : Reference) (request : List DhcpPoolRequest)
    (svc : Option GatewayDhcpService) (outcomes : List (Except String String)) :
    (addDhcpPoolRun network request svc outcomes).2.2 = request.map fillLeaseDefaults
    ∧ (∀ d ∈ request, d.defaultLeaseTime = none →
        (fillLeaseDefaults d).defaultLeaseTime = some 3600)
    ∧ (∀ d ∈ request, d.maxLeaseTime = none →
        (fillLeaseDefaults d).maxLeaseTime = some 7200)
    ∧ ((∃ d ∈ request, d.defaultLeaseTime = none ∨ d.maxLeaseTime = none) →
        (addDhcpPoolRun network request svc outcomes).2.2 ≠ request) := by
  have hmut : (addDhcpPoolRun network request svc outcomes).2.2
      = request.map fillLeaseDefaults := by
    simp [addDhcpPoolRun, addDhcpPoolService, dhcpAppendLoop_eq]
  refine ⟨hmut, ?_, ?_, ?_⟩
  · intro d _ h
    cases hm : d.maxLeaseTime <;> simp [fillLeaseDefaults, h, hm]
  · intro d _ h
    cases hd : d.defaultLeaseTime <;> simp [fillLeaseDefaults, h, hd]
  · rintro ⟨d, hd, hnone⟩ heq
    rw [hmut] at heq
    have hfix := map_fixes_of_map_eq_self fillLeaseDefaults request heq d hd
    rcases hnone with h | h
    · have : (fillLeaseDefaults d).defaultLeaseTime = some 3600 := by
        cases hm : d.maxLeaseTime <;> simp [fillLeaseDefaults, h, hm]
      rw [hfix, h] at this
      exact Option.noConfusion this
    · have : (fillLeaseDefaults d).maxLeaseTime = some 7200 := by
        cases hd' : d.defaultLeaseTime <;> simp [fillLeaseDefaults, h, hd']
      rw [hfix, h] at this
      exact Option.noConfusion this

/-- C10 witness: with one request entry lacking both lease times and a
failing POST, the caller's list still comes back defaulted and changed. -/
theorem addDhcpPool_mutates_request_witness :
    (addDhcpPoolRun { href := "urn:net:int", name := "orgnet" } [demoDhcpRequest]
        (some demoDhcpService) [Except.error "connection refused"]).2.2
      ≠ [demoDhcpRequest] :=
  (addDhcpPool_mutates_request { href := "urn:net:int", name := "orgnet" } [demoDhcpRequest]
    (some demoDhcpService) [Except.error "connection refused"]).2.2.2
    ⟨demoDhcpRequest, by decide, Or.inl rfl⟩

/-- C5: with two or more "uplink" interfaces, the automatic uplink
selection — `getFirstUplink` (used by the NAT add path, and inlined by
`RemoveNATPortMapping`) and the inline loop of the 1:1-mapping paths — is
the network reference of the LAST uplink-flagged interface in iteration
order, not the first. -/
theorem uplink_selection_is_last (ifaces : List GatewayInterface) (gi : GatewayInterface)
    (_h2 : 2 ≤ (ifaces.filter fun g => g.interfaceType == "uplink").length)
    (hlast : (ifaces.filter fun g => g.interfaceType == "uplink").getLast? = some gi) :
    getFirstUplink ifaces = gi.network
    ∧ addNATUplinkRef none ifaces = gi.network.href
    ∧ selectUplinkHref ifaces = gi.network.href := by
  have hg := getFirstUplink_eq_last ifaces
  have hs := selectUplinkHref_eq_last ifaces
  rw [hlast] at hg hs
  simp only [Option.map_some', Option.getD_some] at hg hs
  exact ⟨hg, by simp [addNATUplinkRef, hg], hs⟩

/-- C5 witness: on the demo interface list (uplink A, internal, uplink B)
the selected uplink is B's network, which differs from the first uplink's. -/
theorem uplink_selection_is_last_witness :
    2 ≤ (demoIfaces.filter fun g => g.interfaceType == "uplink").length
    ∧ getFirstUplink demoIfaces = demoUplinkB.network
    ∧ selectUplinkHref demoIfaces = demoUplinkB.network.href
    ∧ demoUplinkB.network ≠ demoUplinkA.network :=
  ⟨by decide,
   (uplink_selection_is_last demoIfaces demoUplinkB (by decide) (by decide)).1,
   (uplink_selection_is_last demoIfaces demoUplinkB (by decide) (by decide)).2.2,
   by decide⟩

/-- C4: when no existing NAT rule matches the 1:1 drop patterns and no
existing firewall rule matches the 1:1 firewall drop patterns for
(internal, external), `Create1to1Mapping` followed by `Remove1to1Mapping`
with the same arguments restores both rule lists: the two appended NAT
rules and the two appended firewall rules are exactly what the remove
filters drop. -/
theorem create_remove_1to1_roundtrip (internal external description : String)
    (ifaces : List GatewayInterface) (nat : NatService) (fw : FirewallService)
    (hnat : ∀ v ∈ nat.natRule,
        remove1to1NatDrop internal external (selectUplinkHref ifaces) v = false)
    (hfw : ∀ v ∈ fw.firewallRule, remove1to1FwDrop internal external v = false) :
    (remove1to1Services internal external ifaces
        (create1to1Services internal external description ifaces nat fw).1
        (create1to1Services internal external description ifaces nat fw).2).1.natRule
      = nat.natRule
    ∧ (remove1to1Services internal external ifaces
        (create1to1Services internal external description ifaces nat fw).1
        (create1to1Services internal external description ifaces nat fw).2).2.firewallRule
      = fw.firewallRule := by
  have hsn : remove1to1NatDrop internal external (selectUplinkHref ifaces)
      (snatRuleFor internal external description (selectUplinkHref ifaces)) = true := by
    simp [remove1to1NatDrop, snatRuleFor]
  have hdn : remove1to1NatDrop internal external (selectUplinkHref ifaces)
      (dnatRuleFor internal external description (selectUplinkHref ifaces)) = true := by
    simp [remove1to1NatDrop, dnatRuleFor]
  have hin : remove1to1FwDrop internal external (fwinRuleFor external description) = true := by
    simp [remove1to1FwDrop, fwinRuleFor]
  have hout : remove1to1FwDrop internal external (fwoutRuleFor internal description) = true := by
    simp [remove1to1FwDrop, fwoutRuleFor]
  have hkeepnat : nat.natRule.filter
      (fun v => !remove1to1NatDrop internal external (selectUplinkHref ifaces) v)
      = nat.natRule :=
    List.filter_eq_self.mpr (fun v hv => by simp [hnat v hv])
  have hkeepfw : fw.firewallRule.filter
      (fun v => !remove1to1FwDrop internal external v) = fw.firewallRule :=
    List.filter_eq_self.mpr (fun v hv => by simp [hfw v hv])
  constructor
  · simp only [remove1to1Services, create1to1Services, keepNonMatching_eq, List.nil_append]
    rw [List.filter_append, List.filter_append]
    simp [hkeepnat, hsn, hdn]
  · simp only [remove1to1Services, create1to1Services, keepNonMatching_eq, List.nil_append]
    rw [List.filter_append, List.filter_append]
    simp [hkeepfw, hin, hout]

/-- C4 witness: on the demo configuration (one unrelated NAT rule, one
unrelated firewall rule, two uplinks) the create/remove round trip for
(10.0.0.8, 203.0.113.2) restores both rule lists. -/
theorem create_remove_1to1_roundtrip_witness :
    (remove1to1Services "10.0.0.8" "203.0.113.2" demoIfaces
        (create1to1Services "10.0.0.8" "203.0.113.2" "port mapping" demoIfaces
          demoNatService demoFwService).1
        (create1to1Services "10.0.0.8" "203.0.113.2" "port mapping" demoIfaces
          demoNatService demoFwService).2).1.natRule
      = demoNatService.natRule
    ∧ (remove1to1Services "10.0.0.8" "203.0.113.2" demoIfaces
        (create1to1Services "10.0.0.8" "203.0.113.2" "port mapping" demoIfaces
          demoNatService demoFwService).1
        (create1to1Services "10.0.0.8" "203.0.113.2" "port mapping" demoIfaces
          demoNatService demoFwService).2).2.firewallRule
      = demoFwService.firewallRule :=
  create_remove_1to1_roundtrip "10.0.0.8" "203.0.113.2" "port mapping" demoIfaces
    demoNatService demoFwService (by decide) (by decide)

/-- C6: the POST of `AddDhcpPool` and `CreateFirewallRules` is retried,
with one sleep per attempt, exactly on transport errors matching the busy
pattern at the end of the message: N busy errors then a success give the
success after exactly N sleeps, an all-busy run never returns, and any
other error propagates at once with no sleep; every other write path
takes its first outcome as final — no retry and no sleep even on the same
busy error. -/
theorem busyRetry_spec :
    (∀ (n : Nat) (msg r : String) (rest : List (Except String String)),
        matchesBusyEnd msg = true →
        addDhcpPoolPost (List.replicate n (.error msg) ++ .ok r :: rest) = some (.ok r, n)
        ∧ createFirewallRulesPost (List.replicate n (.error msg) ++ .ok r :: rest)
            = some (.ok r, n))
    ∧ (∀ (msg : String) (rest : List (Except String String)),
        matchesBusyEnd msg = false →
        addDhcpPoolPost (.error msg :: rest) = some (.error msg, 0)
        ∧ createFirewallRulesPost (.error msg :: rest) = some (.error msg, 0))
    ∧ (∀ (n : Nat) (msg : String),
        matchesBusyEnd msg = true →
        addDhcpPoolPost (List.replicate n (.error msg)) = none
        ∧ createFirewallRulesPost (List.replicate n (.error msg)) = none)
    ∧ (∀ (o : Except String String) (rest : List (Except String String)),
        removeNATPortMappingPost (o :: rest) = some (o, 0)
        ∧ addNATPortMappingPost (o :: rest) = some (o, 0)
        ∧ create1to1MappingPost (o :: rest) = some (o, 0)
        ∧ remove1to1MappingPost (o :: rest) = some (o, 0)
        ∧ addIpsecVPNPost (o :: rest) = some (o, 0)) := by
  refine ⟨?_, ?_, ?_, ?_⟩
  · intro n msg r rest hbusy
    have h := postWithBusyRetry_replicate n 0 msg hbusy (.ok r :: rest)
    constructor <;>
      simp [addDhcpPoolPost, createFirewallRulesPost, h, postWithBusyRetry]
  · intro msg rest hother
    constructor <;>
      simp [addDhcpPoolPost, createFirewallRulesPost, postWithBusyRetry, hother]
  · intro n msg hbusy
    have h := postWithBusyRetry_replicate n 0 msg hbusy []
    rw [List.append_nil] at h
    constructor <;>
      simp [addDhcpPoolPost, createFirewallRulesPost, h, postWithBusyRetry]
  · intro o rest
    exact ⟨rfl, rfl, rfl, rfl, rfl⟩

/-- C6 witness: two busy errors then a success make `AddDhcpPool` succeed
after exactly two sleeps; a non-busy error propagates with no sleep; and
the non-retrying NAT remove path returns the same busy error at once. -/
theorem busyRetry_spec_witness :
    matchesBusyEnd demoBusyMsg = true
    ∧ addDhcpPoolPost [.error demoBusyMsg, .error demoBusyMsg, .ok "task"]
        = some (.ok "task", 2)
    ∧ addDhcpPoolPost [.error "connection refused", .ok "task"]
        = some (.error "connection refused", 0)
    ∧ removeNATPortMappingPost [.error demoBusyMsg, .ok "task"]
        = some (.error demoBusyMsg, 0) :=
  ⟨by decide,
   (busyRetry_spec.1 2 demoBusyMsg "task" [] (by decide)).1,
   (busyRetry_spec.2.1 "connection refused" [.ok "task"] (by decide)).1,
   (busyRetry_spec.2.2.2 (.error demoBusyMsg) [.ok "task"]).1⟩

/-- C7: `Refresh` on a nil gateway struct fails with the missing-state
error having made no HTTP request; on the success path the held
configuration becomes the freshly decoded body alone — decoding starts
from the newly allocated empty struct, so nothing from the previous
in-memory state (whatever it was) survives into the result. -/
theorem refresh_discards_previous_state (t : Except String EdgeGatewayStruct)
    (prev body : EdgeGatewayStruct) :
    refresh none t = (none, .error "cannot refresh, Object is empty", 0)
    ∧ refresh (some prev) (.ok body) = (some body, .ok (), 1)
    ∧ decodeBodyInto emptyEdgeGateway body = body
    ∧ decodeBodyInto prev body
        = { body with gatewayInterface := prev.gatewayInterface ++ body.gatewayInterface } := by
  exact ⟨rfl, rfl, rfl, rfl⟩

/-- C9: with no NAT service in the configuration, `RemoveNATPortMapping`
dereferences the nil service — a panic that produces neither a rebuilt
service nor an error value (`none` here) — while
`AddNATPortMappingWithUplink` on the same configuration builds a new
enabled service holding exactly the new rule. -/
theorem removeNAT_nil_service_panics
    (nattype externalIP externalPort internalIP internalPort uplinkRef : String)
    (ifaces : List GatewayInterface) :
    removeNATPortMappingService nattype externalIP externalPort internalIP internalPort
        ifaces none = none
    ∧ (addNATPortMappingWithUplinkService uplinkRef nattype externalIP externalPort
        internalIP internalPort none).isEnabled = true
    ∧ (addNATPortMappingWithUplinkService uplinkRef nattype externalIP externalPort
        internalIP internalPort none).natRule
      = [newNatRuleFor nattype externalIP externalPort internalIP internalPort uplinkRef] :=
  ⟨rfl, rfl, rfl⟩

/-- C8 counterexample: `Remove1to1Mapping` (and `Create1to1Mapping`) are
sibling write operations that do NOT abort on a failed Refresh — with the
refresh transport failing they still proceed to build and post their
documents, refuting "unlike all its sibling write operations, which abort
on a failed Refresh". -/
theorem remove1to1_proceeds_after_failed_refresh :
    (remove1to1MappingRun "10.0.0.8" "203.0.113.2" demoIfaces demoNatService demoFwService
        (.error "connection refused")).isSome = true
    ∧ (create1to1MappingRun "10.0.0.8" "203.0.113.2" "port mapping" demoIfaces
        demoNatService demoFwService (.error "connection refused")).isSome = true :=
  ⟨rfl, rfl⟩

/-- C8 amended: `AddIpsecVPN` discards the result of its initial Refresh
and posts the caller-supplied configuration document verbatim even when
the Refresh fails; `Create1to1Mapping` and `Remove1to1Mapping` likewise
continue after a failed Refresh, and among the Refresh-calling write
operations only `CreateFirewallRules` aborts. -/
theorem addIpsecVPN_refresh_best_effort (e cfg defaultAction : String)
    (rules : List FirewallRule) (internal external description : String)
    (ifaces : List GatewayInterface) (nat : NatService) (fw : FirewallService) :
    addIpsecVPNRun cfg (.error e) = some cfg
    ∧ createFirewallRulesRun defaultAction rules (.error e) = none
    ∧ (create1to1MappingRun internal external description ifaces nat fw
        (.error e)).isSome = true
    ∧ (remove1to1MappingRun internal external ifaces nat fw (.error e)).isSome = true :=
  ⟨rfl, rfl, rfl, rfl⟩

end Govcloudair
